import Mathlib

/-!
Shallow embedding of the `etrsitrs` package (files `parameterset.py`,
`datumtransformation.py`, `main.py`).  Numeric values are modelled by
exact rationals `ℚ`; Python floats are treated as real numbers, so the
algebraic claims are settled over exact arithmetic.  Python exceptions
are modelled by `Except Err`, where `Err` records which error was raised
and the payload data interpolated into its message.
-/

namespace EtrsItrs

/-- A length-3 numpy array of floats, as used throughout the package. -/
structure Vec3 where
  x : ℚ
  y : ℚ
  z : ℚ
deriving DecidableEq, Repr

/-- Elementwise sum, as numpy `+` on shape-(3,) arrays. -/
def Vec3.add (v w : Vec3) : Vec3 := ⟨v.x + w.x, v.y + w.y, v.z + w.z⟩

/-- Elementwise difference, as numpy `-` on shape-(3,) arrays. -/
def Vec3.sub (v w : Vec3) : Vec3 := ⟨v.x - w.x, v.y - w.y, v.z - w.z⟩

/-- Elementwise scaling, as numpy `*` of a shape-(3,) array by a scalar. -/
def Vec3.smul (v : Vec3) (c : ℚ) : Vec3 := ⟨v.x * c, v.y * c, v.z * c⟩

/-- The underlying sequence of the three components. -/
def Vec3.toList (v : Vec3) : List ℚ := [v.x, v.y, v.z]

/-- A 3×3 numpy array of floats (row-major entries). -/
structure Mat3 where
  a11 : ℚ
  a12 : ℚ
  a13 : ℚ
  a21 : ℚ
  a22 : ℚ
  a23 : ℚ
  a31 : ℚ
  a32 : ℚ
  a33 : ℚ
deriving DecidableEq, Repr

/-- `numpy.dot` of a 3×3 matrix with a 3-vector. -/
def Mat3.mulVec (m : Mat3) (v : Vec3) : Vec3 :=
  ⟨m.a11 * v.x + m.a12 * v.y + m.a13 * v.z,
   m.a21 * v.x + m.a22 * v.y + m.a23 * v.z,
   m.a31 * v.x + m.a32 * v.y + m.a33 * v.z⟩

/-- Entry at row `i`, column `j` (0-based, as in numpy indexing). -/
def Mat3.entry (m : Mat3) (i j : Fin 3) : ℚ :=
  if i.val = 0 then (if j.val = 0 then m.a11 else if j.val = 1 then m.a12 else m.a13)
  else if i.val = 1 then (if j.val = 0 then m.a21 else if j.val = 1 then m.a22 else m.a23)
  else (if j.val = 0 then m.a31 else if j.val = 1 then m.a32 else m.a33)

/-- Which `ValueError`/`KeyError` was raised, with the data its message reports
(`parameterset.py` lines 73-81, `datumtransformation.py` lines 307-310,
`main.py` lines 268-270). -/
inductive Err where
  /-- `translate_m(%r) must be e sequence of 3 floats.` -/
  | badTranslate (translate_m : List ℚ)
  /-- `term_d(%r) must be a very small number.` -/
  | badTermD (term_d : ℚ)
  /-- `rotate_rad(%r) must be e sequence of 3 floats.` -/
  | badRotate (rotate_rad : List ℚ)
  /-- `No %r -> %r only %r <-> %r.` with the requested pair and the
  supported pair `(self.to_frame, self.from_frame)`. -/
  | unsupportedFrame (from_frame to_frame supported_to supported_from : String)
  /-- `No %r -> %r in etrsitrs.main.TRANSFORM_TABLE.` -/
  | notFound (from_frame to_frame : String)
deriving DecidableEq, Repr

instance {ε α : Type} [DecidableEq ε] [DecidableEq α] : DecidableEq (Except ε α) :=
  fun a b =>
    match a, b with
    | .error e1, .error e2 =>
      match decEq e1 e2 with
      | isTrue h => isTrue (by rw [h])
      | isFalse h => isFalse (fun hh => h (Except.error.inj hh))
    | .error _, .ok _ => isFalse Except.noConfusion
    | .ok _, .error _ => isFalse Except.noConfusion
    | .ok a1, .ok a2 =>
      match decEq a1 a2 with
      | isTrue h => isTrue (by rw [h])
      | isFalse h => isFalse (fun hh => h (Except.ok.inj hh))

/-- `ParameterSet` holds the translation (m), term D, and rotation (rad)
parameters after `__init__` has accepted them (`parameterset.py` lines 68-81). -/
structure ParameterSet where
  translate_m : Vec3
  term_d : ℚ
  rotate_rad : Vec3
deriving DecidableEq, Repr

/-- `ParameterSet.__init__` (`parameterset.py` lines 68-81): takes the raw
sequences, checks `len(translate_m) == 3`, then `term_d <= 1e-6`
(the source tests only `term_d > 1e-6`, with no absolute value),
then `len(rotate_rad) == 3`, raising `ValueError` in that order. -/
def ParameterSet.make (translate_m : List ℚ) (term_d : ℚ) (rotate_rad : List ℚ) :
    Except Err ParameterSet :=
  match translate_m with
  | [t1, t2, t3] =>
    if term_d > 1e-6 then
      .error (.badTermD term_d)
    else
      match rotate_rad with
      | [r1, r2, r3] => .ok ⟨⟨t1, t2, t3⟩, term_d, ⟨r1, r2, r3⟩⟩
      | _ => .error (.badRotate rotate_rad)
  | _ => .error (.badTranslate translate_m)

/-- `ParameterSet.matrix` (`parameterset.py` lines 89-114): the matrix
`[[D, -R3, R2], [R3, D, -R1], [-R2, R1, D]]`. -/
def ParameterSet.matrix (p : ParameterSet) : Mat3 :=
  ⟨p.term_d,          -p.rotate_rad.z,  p.rotate_rad.y,
   p.rotate_rad.z,     p.term_d,       -p.rotate_rad.x,
   -p.rotate_rad.y,    p.rotate_rad.x,  p.term_d⟩

/-- `ParameterSet.__mul__` (`parameterset.py` lines 117-120): elementwise
scaling of all three fields, rebuilt through the validating constructor. -/
def ParameterSet.mul (p : ParameterSet) (number : ℚ) : Except Err ParameterSet :=
  ParameterSet.make (p.translate_m.smul number).toList (p.term_d * number)
    (p.rotate_rad.smul number).toList

/-- `ParameterSet.__add__` (`parameterset.py` lines 122-126): componentwise
sum of the fields, rebuilt through the validating constructor. -/
def ParameterSet.add (p other : ParameterSet) : Except Err ParameterSet :=
  ParameterSet.make (p.translate_m.add other.translate_m).toList
    (p.term_d + other.term_d) (p.rotate_rad.add other.rotate_rad).toList

/-- `forward_transform` (`datumtransformation.py` lines 5-55):
`xyz_m + translate_m + dot(rotation_matrix, xyz_m)`. -/
def forward_transform (xyz_m translate_m : Vec3) (rotation_matrix : Mat3) : Vec3 :=
  (xyz_m.add translate_m).add (rotation_matrix.mulVec xyz_m)

/-- `reverse_transform` (`datumtransformation.py` lines 59-115):
`xyz_m - translate_m - dot(rotation_matrix, xyz_m - translate_m)`. -/
def reverse_transform (xyz_m translate_m : Vec3) (rotation_matrix : Mat3) : Vec3 :=
  ((xyz_m.sub translate_m)).sub (rotation_matrix.mulVec (xyz_m.sub translate_m))

/-- `DatumTransformation` (`datumtransformation.py` lines 120-238). -/
structure DatumTransformation where
  from_frame : String
  to_frame : String
  parameters : ParameterSet
  rates : ParameterSet
  ref_epoch : ℚ
deriving DecidableEq, Repr

/-- `DatumTransformation.propagate_parameters` (`datumtransformation.py`
lines 250-266): `self.parameters + self.rates*(epoch - self.ref_epoch)`;
`*` runs first and either operator may raise from the constructor. -/
def DatumTransformation.propagate_parameters (self : DatumTransformation)
    (epoch : ℚ) : Except Err ParameterSet := do
  let scaled ← self.rates.mul (epoch - self.ref_epoch)
  self.parameters.add scaled

/-- `DatumTransformation.convert_fn` (`datumtransformation.py` lines 269-326):
propagates to `epoch`, then selects the forward or reverse transform
by comparing the requested frame pair with `(self.from_frame, self.to_frame)`,
raising `ValueError` (with the requested and the supported pair) otherwise.
Returns the closure over the propagated translation and matrix. -/
def DatumTransformation.convert_fn (self : DatumTransformation)
    (from_frame to_frame : String) (epoch : ℚ) : Except Err (Vec3 → Vec3) := do
  let parameters ← self.propagate_parameters epoch
  let translate_m := parameters.translate_m
  let matrix := parameters.matrix
  if from_frame = self.from_frame ∧ to_frame = self.to_frame then
    .ok (fun xyz_m => forward_transform xyz_m translate_m matrix)
  else if from_frame = self.to_frame ∧ to_frame = self.from_frame then
    .ok (fun xyz_m => reverse_transform xyz_m translate_m matrix)
  else
    .error (.unsupportedFrame from_frame to_frame self.to_frame self.from_frame)

/-- `DatumTransformation.convert` (`datumtransformation.py` lines 329-359):
`self.convert_fn(from_frame, to_frame, epoch)(xyz_m)`. -/
def DatumTransformation.convert (self : DatumTransformation) (xyz_m : Vec3)
    (from_frame to_frame : String) (epoch : ℚ) : Except Err Vec3 := do
  let f ← self.convert_fn from_frame to_frame epoch
  return f xyz_m

/-- `ETRF2000.__init__` (`main.py` lines 104-158): builds a
`DatumTransformation` to frame `ETRF2000` from memo-unit coefficients
`[T1 (mm), T2 (mm), T3 (mm), D (1e-9), R1 (mas), R2 (mas), R3 (mas)]`.
The source fixes `mas = pi/(180*3600*1000)`, an irrational real; since no
claim depends on its numeric value it is abstracted here as the parameter
`mas`, while `mm = 0.001` and the `1e-9` scale on D are kept literal. -/
def ETRF2000 (mas : ℚ) (from_frame : String) (parameters rates : List ℚ)
    (ref_epoch : ℚ) : Except Err DatumTransformation := do
  let mm : ℚ := 0.001
  let params ← ParameterSet.make ((parameters.take 3).map (fun c => c * mm))
    (parameters.getD 3 0 * 1e-9) ((parameters.drop 4).map (fun c => c * mas))
  let rts ← ParameterSet.make ((rates.take 3).map (fun c => c * mm))
    (rates.getD 3 0 * 1e-9) ((rates.drop 4).map (fun c => c * mas))
  return ⟨from_frame, "ETRF2000", params, rts, ref_epoch⟩

/-- `TRANSFORM_TABLE` (`main.py` lines 169-213): the Boucher & Altamimi (2011)
coefficients, one `ETRF2000` entry per ITRF realization.  Every constructor
call succeeds (see `TRANSFORM_TABLE_all_ok`), so collecting the successes
reproduces the Python module-level list. -/
def TRANSFORM_TABLE_entries (mas : ℚ) : List (Except Err DatumTransformation) :=
  [ETRF2000 mas "ITRF2008"
     [52.1, 49.3, -58.5,  1.34, 0.891, 5.390, -8.712]
     [ 0.1,  0.1,  -1.8,  0.08, 0.081, 0.490, -0.792]
     2000.0,
   ETRF2000 mas "ITRF2005"
     [54.1, 50.2, -53.8,  0.40, 0.891, 5.390, -8.712]
     [-0.2,  0.1,  -1.8,  0.08, 0.081, 0.490, -0.792]
     2000.0,
   ETRF2000 mas "ITRF2000"
     [54.0, 51.0, -48.0,  0.00, 0.891, 5.390, -8.712]
     [ 0.0,  0.0,   0.0,  0.00, 0.081, 0.490, -0.792]
     2000.0,
   ETRF2000 mas "ITRF97"
     [47.3, 46.7, -25.3, -1.58, 0.891, 5.390, -8.772]
     [ 0.0,  0.6,   1.4, -0.01, 0.081, 0.490, -0.812]
     2000.0,
   ETRF2000 mas "ITRF96"
     [47.3, 46.7, -25.3, -1.58, 0.891, 5.390, -8.772]
     [ 0.0,  0.6,   1.4, -0.01, 0.081, 0.490, -0.812]
     2000.0,
   ETRF2000 mas "ITRF94"
     [47.3, 46.7, -25.3, -1.58, 0.891, 5.390, -8.772]
     [ 0.0,  0.6,   1.4, -0.01, 0.081, 0.490, -0.812]
     2000.0,
   ETRF2000 mas "ITRF93"
     [76.1, 46.9, -19.9, -2.07, 2.601, 6.870, -8.412]
     [ 2.9,  0.2,   0.6, -0.01, 0.191, 0.680, -0.862]
     2000.0,
   ETRF2000 mas "ITRF92"
     [39.3, 44.7, -17.3, -0.87, 0.891, 5.390, -8.772]
     [ 0.0,  0.6,   1.4, -0.01, 0.081, 0.490, -0.812]
     2000.0,
   ETRF2000 mas "ITRF91"
     [27.3, 30.7, -11.3, -2.27, 0.891, 5.390, -8.772]
     [ 0.0,  0.6,   1.4, -0.01, 0.081, 0.490, -0.812]
     2000.0,
   ETRF2000 mas "ITRF90"
     [29.3, 34.7,   4.7, -2.57, 0.891, 5.390, -8.772]
     [ 0.0,  0.6,   1.4, -0.01, 0.081, 0.490, -0.812]
     2000.0,
   ETRF2000 mas "ITRF89"
     [24.3, 10.7,  42.7, -5.97, 0.891, 5.390, -8.772]
     [ 0.0,  0.6,   1.4, -0.01, 0.081, 0.490, -0.812]
     2000.0]

/-- The table as the list of successfully constructed transforms. -/
def TRANSFORM_TABLE (mas : ℚ) : List DatumTransformation :=
  (TRANSFORM_TABLE_entries mas).filterMap Except.toOption

/-- `find_transform` (`main.py` lines 221-272): filters the table by
membership of both frame fields in `[to_frame, from_frame]` and returns
the first hit, raising `KeyError` naming both requested frames otherwise. -/
def find_transform (table : List DatumTransformation)
    (from_frame to_frame : String) : Except Err DatumTransformation :=
  let frames := [to_frame, from_frame]
  let result := table.filter
    (fun transform => decide (transform.to_frame ∈ frames ∧ transform.from_frame ∈ frames))
  match result with
  | [] => .error (.notFound from_frame to_frame)
  | t :: _ => .ok t

/-- Module-level `convert_fn` (`main.py` lines 24-59), with the table the
Python module closes over made an explicit argument. -/
def convert_fn (table : List DatumTransformation)
    (from_frame to_frame : String) (epoch : ℚ) : Except Err (Vec3 → Vec3) := do
  let transform ← find_transform table from_frame to_frame
  transform.convert_fn from_frame to_frame epoch

/-- Module-level `convert` (`main.py` lines 62-101), with the table explicit. -/
def convert (table : List DatumTransformation) (xyz_m : Vec3)
    (from_frame to_frame : String) (epoch : ℚ) : Except Err Vec3 := do
  let transform ← find_transform table from_frame to_frame
  transform.convert xyz_m from_frame to_frame epoch

/-- The spec's notion of unordered-pair equality of frame-name pairs:
`{a1, a2}` and `{b1, b2}` are equal as unordered pairs. -/
def unordered_pair_eq (a1 a2 b1 b2 : String) : Prop :=
  (a1 = b1 ∧ a2 = b2) ∨ (a1 = b2 ∧ a2 = b1)

instance (a1 a2 b1 b2 : String) : Decidable (unordered_pair_eq a1 a2 b1 b2) := by
  unfold unordered_pair_eq; infer_instance

/-- Modelled from the spec (`FindTransform`, §4.3): scan the table in order
for the first entry whose `{from_frame, to_frame}`, taken as an unordered
pair, equals the requested unordered pair; fail with the not-found error
naming both requested frames when none matches. -/
def find_transform_spec (table : List DatumTransformation)
    (from_frame to_frame : String) : Except Err DatumTransformation :=
  match table.find?
      (fun t => decide (unordered_pair_eq t.from_frame t.to_frame from_frame to_frame)) with
  | some t => .ok t
  | none => .error (.notFound from_frame to_frame)

/-! Helper lemmas shared by the claim theorems. -/

theorem make_toList (v : Vec3) (d : ℚ) (w : Vec3) :
    ParameterSet.make v.toList d w.toList =
      if d > 1e-6 then .error (.badTermD d) else .ok ⟨v, d, w⟩ := by
  cases v; cases w; rfl

theorem make_badTranslate (t : List ℚ) (d : ℚ) (r : List ℚ) (ht : t.length ≠ 3) :
    ParameterSet.make t d r = .error (.badTranslate t) := by
  match t with
  | [] => rfl
  | [_] => rfl
  | [_, _] => rfl
  | [_, _, _] => exact absurd rfl ht
  | _ :: _ :: _ :: _ :: _ => rfl

theorem make_badRotate (t1 t2 t3 d : ℚ) (r : List ℚ) (hd : ¬ d > 1e-6)
    (hr : r.length ≠ 3) :
    ParameterSet.make [t1, t2, t3] d r = .error (.badRotate r) := by
  match r with
  | [] => simp [ParameterSet.make, hd]
  | [_] => simp [ParameterSet.make, hd]
  | [_, _] => simp [ParameterSet.make, hd]
  | [_, _, _] => exact absurd rfl hr
  | _ :: _ :: _ :: _ :: _ => simp [ParameterSet.make, hd]

theorem make_badTermD (t1 t2 t3 d : ℚ) (r : List ℚ) (hd : d > 1e-6) :
    ParameterSet.make [t1, t2, t3] d r = .error (.badTermD d) := by
  simp [ParameterSet.make, hd]

theorem make_ok (t1 t2 t3 d r1 r2 r3 : ℚ) (hd : ¬ d > 1e-6) :
    ParameterSet.make [t1, t2, t3] d [r1, r2, r3] =
      .ok ⟨⟨t1, t2, t3⟩, d, ⟨r1, r2, r3⟩⟩ := by
  simp [ParameterSet.make, hd]

theorem mul_eq (p : ParameterSet) (n : ℚ) :
    p.mul n = if p.term_d * n > 1e-6 then .error (.badTermD (p.term_d * n))
      else .ok ⟨p.translate_m.smul n, p.term_d * n, p.rotate_rad.smul n⟩ := by
  unfold ParameterSet.mul
  exact make_toList _ _ _

theorem add_eq (p q : ParameterSet) :
    p.add q = if p.term_d + q.term_d > 1e-6 then .error (.badTermD (p.term_d + q.term_d))
      else .ok ⟨p.translate_m.add q.translate_m, p.term_d + q.term_d,
                p.rotate_rad.add q.rotate_rad⟩ := by
  unfold ParameterSet.add
  exact make_toList _ _ _

theorem vec3_smul_zero (v : Vec3) : v.smul 0 = ⟨0, 0, 0⟩ := by
  simp [Vec3.smul]

theorem vec3_add_zero (v : Vec3) : v.add ⟨0, 0, 0⟩ = v := by
  cases v; simp [Vec3.add]

/-- Pure algebra behind the round trip: the reverse transform applied after the
forward transform lands at `v - M·(M·v)`, not at `v`. -/
theorem reverse_forward (v translate : Vec3) (M : Mat3) :
    reverse_transform (forward_transform v translate M) translate M =
      v.sub (M.mulVec (M.mulVec v)) := by
  cases v; cases translate; cases M
  simp only [forward_transform, reverse_transform, Vec3.add, Vec3.sub, Mat3.mulVec,
    Vec3.mk.injEq]
  refine ⟨?_, ?_, ?_⟩ <;> ring

/-- The filters run by `find_transform` for `(a, b)` and for `(b, a)` coincide. -/
theorem find_transform_filter_comm (table : List DatumTransformation) (a b : String) :
    table.filter (fun t => decide (t.to_frame ∈ [b, a] ∧ t.from_frame ∈ [b, a])) =
      table.filter (fun t => decide (t.to_frame ∈ [a, b] ∧ t.from_frame ∈ [a, b])) := by
  apply List.filter_congr
  intro t _
  apply decide_eq_decide.mpr
  simp only [List.mem_cons, List.not_mem_nil, or_false]
  tauto

theorem find_transform_ok_symm (table : List DatumTransformation) (a b : String)
    (dt : DatumTransformation) (h : find_transform table a b = .ok dt) :
    find_transform table b a = .ok dt := by
  simp only [find_transform] at h ⊢
  rw [find_transform_filter_comm table b a]
  revert h
  cases table.filter (fun t => decide (t.to_frame ∈ [b, a] ∧ t.from_frame ∈ [b, a])) with
  | nil => intro h; exact absurd h (by simp)
  | cons t ts => intro h; exact h

/-- For a transform whose two frames differ, membership of both frame fields in
the requested two-element list is the same as unordered-pair equality. -/
theorem mem_pair_iff (t : DatumTransformation) (a b : String)
    (h : t.from_frame ≠ t.to_frame) :
    (t.to_frame ∈ [b, a] ∧ t.from_frame ∈ [b, a]) ↔
      unordered_pair_eq t.from_frame t.to_frame a b := by
  simp only [List.mem_cons, List.not_mem_nil, or_false, unordered_pair_eq]
  constructor
  · rintro ⟨hto | hto, hfrom | hfrom⟩
    · exact absurd (hfrom.trans hto.symm) h
    · exact Or.inl ⟨hfrom, hto⟩
    · exact Or.inr ⟨hfrom, hto⟩
    · exact absurd (hfrom.trans hto.symm) h
  · rintro (⟨h1, h2⟩ | ⟨h1, h2⟩)
    · exact ⟨Or.inl h2, Or.inr h1⟩
    · exact ⟨Or.inr h2, Or.inl h1⟩

theorem find_transform_eq_spec (table : List DatumTransformation) (a b : String)
    (hft : ∀ t ∈ table, t.from_frame ≠ t.to_frame) :
    find_transform table a b = find_transform_spec table a b := by
  induction table with
  | nil => rfl
  | cons t ts ih =>
    have hhead : t.from_frame ≠ t.to_frame := hft t (List.mem_cons_self t ts)
    have htail : ∀ u ∈ ts, u.from_frame ≠ u.to_frame :=
      fun u hu => hft u (List.mem_cons_of_mem t hu)
    have hpred : decide (t.to_frame ∈ [b, a] ∧ t.from_frame ∈ [b, a]) =
        decide (unordered_pair_eq t.from_frame t.to_frame a b) :=
      decide_eq_decide.mpr (mem_pair_iff t a b hhead)
    have ih2 := ih htail
    simp only [find_transform, find_transform_spec] at ih2 ⊢
    simp only [List.filter_cons, List.find?_cons, hpred]
    cases hc : decide (unordered_pair_eq t.from_frame t.to_frame a b) with
    | true => simp [hc]
    | false => simp only [hc, Bool.false_eq_true, if_false]; exact ih2

/-- Every entry of the transform table is built by a successful `ETRF2000`
constructor call, whatever the value of the rotation unit `mas`:
nothing is dropped when the successes are collected. -/
theorem TRANSFORM_TABLE_length (mas : ℚ) : (TRANSFORM_TABLE mas).length = 11 := by
  norm_num [TRANSFORM_TABLE, TRANSFORM_TABLE_entries, ETRF2000, ParameterSet.make,
    Except.instMonad, Except.bind, Except.toOption, Except.pure, List.filterMap_cons,
    List.filterMap_nil]

theorem convert_forward_eq (dt : DatumTransformation) (v : Vec3) (a b : String)
    (epoch : ℚ) (P : ParameterSet) (h2 : dt.from_frame = a) (h3 : dt.to_frame = b)
    (hp : dt.propagate_parameters epoch = .ok P) :
    dt.convert v a b epoch = .ok (forward_transform v P.translate_m P.matrix) := by
  simp only [DatumTransformation.convert, DatumTransformation.convert_fn, hp, h2, h3,
    bind, Except.bind, and_self, if_true, pure, Except.pure]

theorem convert_reverse_eq (dt : DatumTransformation) (v : Vec3) (a b : String)
    (epoch : ℚ) (P : ParameterSet) (h2 : dt.from_frame = a) (h3 : dt.to_frame = b)
    (h4 : a ≠ b) (hp : dt.propagate_parameters epoch = .ok P) :
    dt.convert v b a epoch = .ok (reverse_transform v P.translate_m P.matrix) := by
  simp only [DatumTransformation.convert, DatumTransformation.convert_fn, hp, h2, h3,
    bind, Except.bind, pure, Except.pure]
  rw [if_neg (fun hc => h4 hc.2)]
  simp

/-- C1, counterexample.  The claim states that
`reverse_transform(forward_transform(v, T, M), T, M)` equals `v` exactly for
every matrix built by `ParameterSet.matrix()`.  Take the constructible
parameter set with `translate_m = (0,0,0)`, `term_d = 0`,
`rotate_rad = (1,0,0)` and `v = (0,1,0)`: the round trip returns `(0,2,0)`,
not `v`, so the identity is not exact. -/
theorem reverse_forward_not_identity_cex :
    ParameterSet.make [0, 0, 0] 0 [1, 0, 0] =
      .ok (ParameterSet.mk ⟨0, 0, 0⟩ 0 ⟨1, 0, 0⟩) ∧
    reverse_transform
        (forward_transform ⟨0, 1, 0⟩ (ParameterSet.mk ⟨0, 0, 0⟩ 0 ⟨1, 0, 0⟩).translate_m
          (ParameterSet.mk ⟨0, 0, 0⟩ 0 ⟨1, 0, 0⟩).matrix)
        (ParameterSet.mk ⟨0, 0, 0⟩ 0 ⟨1, 0, 0⟩).translate_m
        (ParameterSet.mk ⟨0, 0, 0⟩ 0 ⟨1, 0, 0⟩).matrix =
      Vec3.mk 0 2 0 ∧ Vec3.mk 0 2 0 ≠ ⟨0, 1, 0⟩ := by
  refine ⟨by norm_num [ParameterSet.make], ?_, ?_⟩
  · norm_num [reverse_transform, forward_transform, ParameterSet.matrix, Mat3.mulVec,
      Vec3.add, Vec3.sub]
  · intro hc
    exact absurd (congrArg Vec3.y hc) (by norm_num)

/-- C1, amended.  The reverse transform undoes the forward transform only up
to the second-order term: for every translation `T`, matrix `M` and vector
`v`, `reverse_transform(forward_transform(v, T, M), T, M) = v - M·(M·v)`
exactly (so the round trip is the identity precisely when `M·(M·v) = 0`, and
for the table's tiny parameters the defect is of second order ≈ 1e-16
relative, well inside the spec's stated ~1e-9 tolerance); consequently the
`convert`-level round trip through a table entry returns
`v - M·(M·v)` for the propagated matrix `M`, not `v` itself. -/
theorem reverse_forward_second_order (T : Vec3) (M : Mat3) (v : Vec3)
    (table : List DatumTransformation) (dt : DatumTransformation) (a b : String)
    (epoch : ℚ) (P : ParameterSet)
    (h1 : find_transform table a b = .ok dt) (h2 : dt.from_frame = a)
    (h3 : dt.to_frame = b) (h4 : a ≠ b)
    (h5 : dt.propagate_parameters epoch = .ok P) :
    reverse_transform (forward_transform v T M) T M = v.sub (M.mulVec (M.mulVec v))
    ∧ (convert table v a b epoch).bind
        (fun u => convert table u b a epoch) =
      .ok (v.sub (P.matrix.mulVec (P.matrix.mulVec v))) := by
  refine ⟨reverse_forward v T M, ?_⟩
  have hsymm : find_transform table b a = .ok dt := find_transform_ok_symm table a b dt h1
  have hfwd := convert_forward_eq dt v a b epoch P h2 h3 h5
  have hrev := convert_reverse_eq dt (forward_transform v P.translate_m P.matrix)
    a b epoch P h2 h3 h4 h5
  simp only [convert, h1, hsymm, bind, Except.bind, hfwd, hrev]
  rw [reverse_forward]

/-- C1, witness: the amended round-trip law instantiated on the ITRF2008 entry
of the transform table at epoch 2005.0. -/
theorem reverse_forward_second_order_witness :
    reverse_transform (forward_transform ⟨7, 8, 9⟩ ⟨1, 2, 3⟩ (Mat3.mk 1 0 0 0 1 0 0 0 1))
        ⟨1, 2, 3⟩ (Mat3.mk 1 0 0 0 1 0 0 0 1) =
      Vec3.sub ⟨7, 8, 9⟩
        ((Mat3.mk 1 0 0 0 1 0 0 0 1).mulVec ((Mat3.mk 1 0 0 0 1 0 0 0 1).mulVec ⟨7, 8, 9⟩))
    ∧ (convert (TRANSFORM_TABLE 0) ⟨7, 8, 9⟩ "ITRF2008" "ETRF2000" 2005).bind
        (fun u => convert (TRANSFORM_TABLE 0) u "ETRF2000" "ITRF2008" 2005) =
      .ok (Vec3.sub ⟨7, 8, 9⟩
        ((ParameterSet.mk ⟨0.0526, 0.0498, -0.0675⟩ 1.74e-9 ⟨0, 0, 0⟩).matrix.mulVec
          ((ParameterSet.mk ⟨0.0526, 0.0498, -0.0675⟩ 1.74e-9 ⟨0, 0, 0⟩).matrix.mulVec
            ⟨7, 8, 9⟩))) :=
  reverse_forward_second_order ⟨1, 2, 3⟩ (Mat3.mk 1 0 0 0 1 0 0 0 1) ⟨7, 8, 9⟩
    (TRANSFORM_TABLE 0)
    (DatumTransformation.mk "ITRF2008" "ETRF2000"
      ⟨⟨0.0521, 0.0493, -0.0585⟩, 1.34e-9, ⟨0, 0, 0⟩⟩
      ⟨⟨0.0001, 0.0001, -0.0018⟩, 0.08e-9, ⟨0, 0, 0⟩⟩ 2000)
    "ITRF2008" "ETRF2000" 2005 ⟨⟨0.0526, 0.0498, -0.0675⟩, 1.74e-9, ⟨0, 0, 0⟩⟩
    (by norm_num [TRANSFORM_TABLE, TRANSFORM_TABLE_entries, ETRF2000, ParameterSet.make,
      find_transform, List.filter, Except.instMonad, Except.bind, Except.toOption,
      Except.pure, List.filterMap_cons, List.filterMap_nil])
    rfl rfl (by decide)
    (by norm_num [DatumTransformation.propagate_parameters, ParameterSet.mul,
      ParameterSet.add, ParameterSet.make, Vec3.smul, Vec3.add, Vec3.toList,
      Except.instMonad, Except.bind, Except.pure])

/-- C2, counterexample.  The claim states that construction fails whenever
`|term_d| > 1e-6`, in particular for `term_d = -2.0`.  But `__init__` tests
only `term_d > 1e-6`, so `ParameterSet([0,0,0], -2.0, [0,0,0])` succeeds. -/
theorem make_negative_term_d_ok_cex :
    ParameterSet.make [0, 0, 0] (-2) [0, 0, 0] =
      .ok (ParameterSet.mk ⟨0, 0, 0⟩ (-2) ⟨0, 0, 0⟩) := by
  norm_num [ParameterSet.make]

/-- C2, amended.  Constructing a `ParameterSet` fails exactly when
`translate_m` does not have 3 components, or `term_d > 1e-6` (the test is
one-sided: no lower bound on `term_d` is enforced, so arbitrarily negative
values pass), or `rotate_rad` does not have 3 components; each failure
raises the `ValueError` reporting the offending argument, checked in the
order `translate_m`, `term_d`, `rotate_rad`.  For `term_d = 2.0` construction
fails and for `term_d <= 1e-6` (e.g. `1e-7`) with two 3-component vectors it
succeeds. -/
theorem make_validation_cases (t : List ℚ) (d : ℚ) (r : List ℚ) :
    ((ParameterSet.make t d r).toOption = none ↔
      (t.length ≠ 3 ∨ d > 1e-6 ∨ r.length ≠ 3))
    ∧ (t.length ≠ 3 → ParameterSet.make t d r = .error (.badTranslate t))
    ∧ (t.length = 3 → d > 1e-6 → ParameterSet.make t d r = .error (.badTermD d))
    ∧ (t.length = 3 → ¬ d > 1e-6 → r.length ≠ 3 →
        ParameterSet.make t d r = .error (.badRotate r)) := by
  by_cases ht : t.length = 3
  · obtain ⟨t1, t2, t3, rfl⟩ := List.length_eq_three.mp ht
    by_cases hd : d > 1e-6
    · refine ⟨?_, fun hc => absurd ht hc, fun _ _ => make_badTermD t1 t2 t3 d r hd,
        fun _ hc => absurd hd hc⟩
      rw [make_badTermD t1 t2 t3 d r hd]
      simp [hd, Except.toOption]
    · by_cases hr : r.length = 3
      · obtain ⟨r1, r2, r3, rfl⟩ := List.length_eq_three.mp hr
        refine ⟨?_, fun hc => absurd ht hc, fun _ hc => absurd hc hd,
          fun _ _ hc => absurd hr hc⟩
        rw [make_ok t1 t2 t3 d r1 r2 r3 hd]
        simp [ht, hr, hd, Except.toOption]
      · refine ⟨?_, fun hc => absurd ht hc, fun _ hc => absurd hc hd,
          fun _ _ _ => make_badRotate t1 t2 t3 d r hd hr⟩
        rw [make_badRotate t1 t2 t3 d r hd hr]
        simp [ht, hd, hr, Except.toOption]
  · refine ⟨?_, fun _ => make_badTranslate t d r ht, fun hc => absurd hc ht,
      fun hc => absurd hc ht⟩
    rw [make_badTranslate t d r ht]
    simp [ht, Except.toOption]

/-- C2, witness: the amended validation instantiated at `term_d = 2.0` with
two 3-component vectors, which fails with the term-D `ValueError`. -/
theorem make_validation_cases_witness :
    ParameterSet.make [0, 0, 0] 2 [0, 0, 0] = .error (.badTermD 2) :=
  (make_validation_cases [0, 0, 0] 2 [0, 0, 0]).2.2.1 (by decide) (by norm_num)

/-- C9.  The `term_d` validation is one-sided: with 3-component translation
and rotation sequences, construction succeeds for every `term_d <= 1e-6`,
including arbitrarily large negative values; no lower bound is enforced.
Every 3-component sequence of floats is `Vec3.toList` of its components. -/
theorem make_one_sided_term_d (v w : Vec3) (d : ℚ) (hd : d ≤ 1e-6) :
    ParameterSet.make v.toList d w.toList = .ok (ParameterSet.mk v d w) := by
  rw [make_toList, if_neg (not_lt.mpr hd)]

/-- C9, witness: `term_d = -2.0`, far below any plausible magnitude bound,
is accepted. -/
theorem make_one_sided_term_d_witness :
    ParameterSet.make (Vec3.mk 1 2 3).toList (-2) (Vec3.mk 4 5 6).toList =
      .ok (ParameterSet.mk ⟨1, 2, 3⟩ (-2) ⟨4, 5, 6⟩) :=
  make_one_sided_term_d ⟨1, 2, 3⟩ ⟨4, 5, 6⟩ (-2) (by norm_num)

/-- C3.  Whenever `propagate_parameters(epoch)` returns a `ParameterSet`, it
is exactly the component-wise sum of the base parameters and the rates scaled
by `epoch - ref_epoch`, on `translate_m`, `term_d` and `rotate_rad` alike. -/
theorem propagate_parameters_componentwise (dt : DatumTransformation) (epoch : ℚ)
    (P : ParameterSet) (h : dt.propagate_parameters epoch = .ok P) :
    P = ParameterSet.mk
      (dt.parameters.translate_m.add (dt.rates.translate_m.smul (epoch - dt.ref_epoch)))
      (dt.parameters.term_d + dt.rates.term_d * (epoch - dt.ref_epoch))
      (dt.parameters.rotate_rad.add (dt.rates.rotate_rad.smul (epoch - dt.ref_epoch))) := by
  simp only [DatumTransformation.propagate_parameters, bind, mul_eq, add_eq] at h
  split at h
  · simp [Except.bind] at h
  · simp only [Except.bind] at h
    split at h
    · simp at h
    · simp only [Except.ok.injEq] at h
      exact h.symm

/-- C3, witness: the ITRF2008 table coefficients propagated from 2000.0 to
2005.0 give the component-wise sums. -/
theorem propagate_parameters_componentwise_witness :
    ParameterSet.mk ⟨0.0526, 0.0498, -0.0675⟩ 1.74e-9 ⟨0, 0, 0⟩ =
      ParameterSet.mk
        ((Vec3.mk 0.0521 0.0493 (-0.0585)).add ((Vec3.mk 0.0001 0.0001 (-0.0018)).smul
          (2005 - 2000)))
        (1.34e-9 + 0.08e-9 * (2005 - 2000))
        ((Vec3.mk 0 0 0).add ((Vec3.mk 0 0 0).smul (2005 - 2000))) :=
  propagate_parameters_componentwise
    (DatumTransformation.mk "ITRF2008" "ETRF2000"
      ⟨⟨0.0521, 0.0493, -0.0585⟩, 1.34e-9, ⟨0, 0, 0⟩⟩
      ⟨⟨0.0001, 0.0001, -0.0018⟩, 0.08e-9, ⟨0, 0, 0⟩⟩ 2000)
    2005 ⟨⟨0.0526, 0.0498, -0.0675⟩, 1.74e-9, ⟨0, 0, 0⟩⟩
    (by norm_num [DatumTransformation.propagate_parameters, ParameterSet.mul,
      ParameterSet.add, ParameterSet.make, Vec3.smul, Vec3.add, Vec3.toList,
      Except.instMonad, Except.bind, Except.pure])

/-- C4.  Propagating to the reference epoch is the identity: the rate
contribution vanishes and the stored parameters are returned unchanged
(the hypothesis `term_d <= 1e-6` holds for every parameter set that passed
the constructor, so it is no restriction). -/
theorem propagate_parameters_ref_epoch (dt : DatumTransformation)
    (h : dt.parameters.term_d ≤ 1e-6) :
    dt.propagate_parameters dt.ref_epoch = .ok dt.parameters := by
  simp only [DatumTransformation.propagate_parameters, bind, mul_eq, sub_self, mul_zero]
  rw [if_neg (by norm_num)]
  simp only [Except.bind, add_eq, vec3_smul_zero, vec3_add_zero, add_zero]
  rw [if_neg (not_lt.mpr h)]

/-- C4, witness: the ITRF2008 entry propagated to its own reference epoch
2000.0 returns its stored parameters. -/
theorem propagate_parameters_ref_epoch_witness :
    (DatumTransformation.mk "ITRF2008" "ETRF2000"
        ⟨⟨0.0521, 0.0493, -0.0585⟩, 1.34e-9, ⟨0, 0, 0⟩⟩
        ⟨⟨0.0001, 0.0001, -0.0018⟩, 0.08e-9, ⟨0, 0, 0⟩⟩ 2000).propagate_parameters
      (DatumTransformation.mk "ITRF2008" "ETRF2000"
        ⟨⟨0.0521, 0.0493, -0.0585⟩, 1.34e-9, ⟨0, 0, 0⟩⟩
        ⟨⟨0.0001, 0.0001, -0.0018⟩, 0.08e-9, ⟨0, 0, 0⟩⟩ 2000).ref_epoch =
      .ok (DatumTransformation.mk "ITRF2008" "ETRF2000"
        ⟨⟨0.0521, 0.0493, -0.0585⟩, 1.34e-9, ⟨0, 0, 0⟩⟩
        ⟨⟨0.0001, 0.0001, -0.0018⟩, 0.08e-9, ⟨0, 0, 0⟩⟩ 2000).parameters :=
  propagate_parameters_ref_epoch
    (DatumTransformation.mk "ITRF2008" "ETRF2000"
      ⟨⟨0.0521, 0.0493, -0.0585⟩, 1.34e-9, ⟨0, 0, 0⟩⟩
      ⟨⟨0.0001, 0.0001, -0.0018⟩, 0.08e-9, ⟨0, 0, 0⟩⟩ 2000)
    (by norm_num)

/-- C5.  With the propagated parameters available, `convert_fn` applies the
forward transform for the pair `(self.from_frame, self.to_frame)`, the
reverse transform for `(self.to_frame, self.from_frame)`, and for any other
pair raises the unsupported-frame `ValueError` reporting the two requested
names and the one supported pair; the hypothesis `from_frame ≠ to_frame` is
the spec's data-model invariant on `DatumTransformation`. -/
theorem convert_fn_dispatch (dt : DatumTransformation) (a b : String) (epoch : ℚ)
    (P : ParameterSet) (hframes : dt.from_frame ≠ dt.to_frame)
    (hp : dt.propagate_parameters epoch = .ok P) :
    (a = dt.from_frame ∧ b = dt.to_frame →
      dt.convert_fn a b epoch =
        .ok (fun xyz_m => forward_transform xyz_m P.translate_m P.matrix))
    ∧ (a = dt.to_frame ∧ b = dt.from_frame →
      dt.convert_fn a b epoch =
        .ok (fun xyz_m => reverse_transform xyz_m P.translate_m P.matrix))
    ∧ (¬(a = dt.from_frame ∧ b = dt.to_frame) →
       ¬(a = dt.to_frame ∧ b = dt.from_frame) →
      dt.convert_fn a b epoch =
        .error (.unsupportedFrame a b dt.to_frame dt.from_frame)) := by
  refine ⟨?_, ?_, ?_⟩
  · rintro ⟨h1, h2⟩
    simp only [DatumTransformation.convert_fn, hp, bind, Except.bind]
    rw [if_pos ⟨h1, h2⟩]
  · rintro ⟨h1, h2⟩
    simp only [DatumTransformation.convert_fn, hp, bind, Except.bind]
    rw [if_neg (fun hc => hframes (hc.1.symm.trans h1)), if_pos ⟨h1, h2⟩]
  · intro hn1 hn2
    simp only [DatumTransformation.convert_fn, hp, bind, Except.bind]
    rw [if_neg hn1, if_neg hn2]

/-- C5, witness: the ITRF2008↔ETRF2000 entry at epoch 2005.0, requested in
the reverse direction, yields the reverse-transform closure. -/
theorem convert_fn_dispatch_witness :
    (DatumTransformation.mk "ITRF2008" "ETRF2000"
        ⟨⟨0.0521, 0.0493, -0.0585⟩, 1.34e-9, ⟨0, 0, 0⟩⟩
        ⟨⟨0.0001, 0.0001, -0.0018⟩, 0.08e-9, ⟨0, 0, 0⟩⟩ 2000).convert_fn
      "ETRF2000" "ITRF2008" 2005 =
    .ok (fun xyz_m => reverse_transform xyz_m
      (ParameterSet.mk ⟨0.0526, 0.0498, -0.0675⟩ 1.74e-9 ⟨0, 0, 0⟩).translate_m
      (ParameterSet.mk ⟨0.0526, 0.0498, -0.0675⟩ 1.74e-9 ⟨0, 0, 0⟩).matrix) :=
  (convert_fn_dispatch
    (DatumTransformation.mk "ITRF2008" "ETRF2000"
      ⟨⟨0.0521, 0.0493, -0.0585⟩, 1.34e-9, ⟨0, 0, 0⟩⟩
      ⟨⟨0.0001, 0.0001, -0.0018⟩, 0.08e-9, ⟨0, 0, 0⟩⟩ 2000)
    "ETRF2000" "ITRF2008" 2005 ⟨⟨0.0526, 0.0498, -0.0675⟩, 1.74e-9, ⟨0, 0, 0⟩⟩
    (by decide)
    (by norm_num [DatumTransformation.propagate_parameters, ParameterSet.mul,
      ParameterSet.add, ParameterSet.make, Vec3.smul, Vec3.add, Vec3.toList,
      Except.instMonad, Except.bind, Except.pure])).2.1 ⟨rfl, rfl⟩

/-- C6.  For a table whose entries all have distinct frames (true of the
whole `TRANSFORM_TABLE`), `find_transform` returns the first entry matching
the requested pair as an unordered pair — so `(A, B)` and `(B, A)` select the
same entry — and when nothing matches it fails with the not-found `KeyError`
naming both requested frames. -/
theorem find_transform_unordered_first_match (table : List DatumTransformation)
    (a b : String) (hft : ∀ t ∈ table, t.from_frame ≠ t.to_frame) :
    find_transform table a b = find_transform_spec table a b
    ∧ (∀ dt, find_transform table a b = .ok dt → find_transform table b a = .ok dt)
    ∧ ((∀ t ∈ table, ¬ unordered_pair_eq t.from_frame t.to_frame a b) →
        find_transform table a b = .error (.notFound a b)) := by
  refine ⟨find_transform_eq_spec table a b hft,
    fun dt h => find_transform_ok_symm table a b dt h, ?_⟩
  intro hnone
  rw [find_transform_eq_spec table a b hft]
  have hfind : table.find?
      (fun t => decide (unordered_pair_eq t.from_frame t.to_frame a b)) = none :=
    List.find?_eq_none.mpr (fun t ht => by simpa using hnone t ht)
  simp only [find_transform_spec, hfind]

/-- C6, witness: looking up `(ETRF2000, ITRF2000)` in the transform table
agrees with the first-unordered-pair-match specification. -/
theorem find_transform_unordered_first_match_witness :
    find_transform (TRANSFORM_TABLE 0) "ETRF2000" "ITRF2000" =
      find_transform_spec (TRANSFORM_TABLE 0) "ETRF2000" "ITRF2000" :=
  (find_transform_unordered_first_match (TRANSFORM_TABLE 0) "ETRF2000" "ITRF2000"
    (by
      norm_num [TRANSFORM_TABLE, TRANSFORM_TABLE_entries, ETRF2000, ParameterSet.make,
        Except.instMonad, Except.bind, Except.toOption, Except.pure,
        List.filterMap_cons, List.filterMap_nil]
      decide)).1

/-- C7.  `convert(xyz, from, to, epoch)` is exactly `convert_fn(from, to,
epoch)` built once and applied immediately to `xyz`: the same value is
returned and the same error is raised in the same cases. -/
theorem convert_eq_convert_fn_apply (dt : DatumTransformation) (xyz : Vec3)
    (a b : String) (epoch : ℚ) :
    dt.convert xyz a b epoch = (dt.convert_fn a b epoch).map (fun f => f xyz) := by
  unfold DatumTransformation.convert
  cases h : dt.convert_fn a b epoch <;>
    simp [h, bind, Except.bind, Except.map, pure, Except.pure]

/-- C8.  `matrix()` returns exactly
`[[D, -R3, R2], [R3, D, -R1], [-R2, R1, D]]`: the diagonal entries all equal
`term_d` and the off-diagonal part is skew-symmetric.  In the embedding it is
a pure function of the stored fields (it has no other inputs or effects). -/
theorem matrix_entries_skew (p : ParameterSet) :
    p.matrix = Mat3.mk p.term_d (-p.rotate_rad.z) p.rotate_rad.y
        p.rotate_rad.z p.term_d (-p.rotate_rad.x)
        (-p.rotate_rad.y) p.rotate_rad.x p.term_d
    ∧ (∀ i : Fin 3, p.matrix.entry i i = p.term_d)
    ∧ (∀ i j : Fin 3, i ≠ j → p.matrix.entry i j = -(p.matrix.entry j i)) := by
  refine ⟨rfl, ?_, ?_⟩
  · intro i
    fin_cases i <;> simp [Mat3.entry, ParameterSet.matrix]
  · intro i j hij
    fin_cases i <;> fin_cases j <;>
      simp_all [Mat3.entry, ParameterSet.matrix]

/-- C8, witness: the docstring example set
`ParameterSet((0.01, 0.02, 0.03), 3.14e-9, [-0.1, -0.2, -0.3])`, checked at
the off-diagonal entry `(0, 1)`. -/
theorem matrix_entries_skew_witness :
    (ParameterSet.mk ⟨0.01, 0.02, 0.03⟩ 3.14e-9 ⟨-0.1, -0.2, -0.3⟩).matrix.entry 0 1 =
      -((ParameterSet.mk ⟨0.01, 0.02, 0.03⟩ 3.14e-9 ⟨-0.1, -0.2, -0.3⟩).matrix.entry 1 0) :=
  (matrix_entries_skew (ParameterSet.mk ⟨0.01, 0.02, 0.03⟩ 3.14e-9 ⟨-0.1, -0.2, -0.3⟩)).2.2
    0 1 (by decide)

/-- C10.  Propagation is not total in the epoch: for any transform whose
rates have nonzero `term_d`, the epoch `ref_epoch + 2e-6 / rates.term_d`
makes the scaled `term_d` equal `2e-6 > 1e-6`, so the validating constructor
inside `__mul__` raises, and `propagate_parameters`, `convert_fn` and
`convert` (for every frame pair and input vector) all fail with that
`ValueError`. -/
theorem propagate_overflow_term_d (dt : DatumTransformation) (a b : String)
    (v : Vec3) (epoch : ℚ) (hr : dt.rates.term_d ≠ 0)
    (he : epoch = dt.ref_epoch + 2e-6 / dt.rates.term_d) :
    dt.propagate_parameters epoch = .error (.badTermD 2e-6)
    ∧ dt.convert_fn a b epoch = .error (.badTermD 2e-6)
    ∧ dt.convert v a b epoch = .error (.badTermD 2e-6) := by
  have hmul : dt.rates.term_d * (epoch - dt.ref_epoch) = 2e-6 := by
    rw [he, add_sub_cancel_left, mul_comm, div_mul_cancel₀ _ hr]
  have hprop : dt.propagate_parameters epoch = .error (.badTermD 2e-6) := by
    simp only [DatumTransformation.propagate_parameters, bind, mul_eq, hmul]
    rw [if_pos (by norm_num)]
    simp [Except.bind]
  refine ⟨hprop, ?_, ?_⟩
  · simp only [DatumTransformation.convert_fn, hprop, bind, Except.bind]
  · simp only [DatumTransformation.convert, DatumTransformation.convert_fn, hprop,
      bind, Except.bind]

/-- C10, witness: the ITRF2008 table entry (`rates.term_d = 0.08e-9`) fails
at epoch 27000.0 = 2000.0 + 2e-6/0.08e-9. -/
theorem propagate_overflow_term_d_witness :
    (DatumTransformation.mk "ITRF2008" "ETRF2000"
        ⟨⟨0.0521, 0.0493, -0.0585⟩, 1.34e-9, ⟨0, 0, 0⟩⟩
        ⟨⟨0.0001, 0.0001, -0.0018⟩, 0.08e-9, ⟨0, 0, 0⟩⟩ 2000).propagate_parameters
      27000 = .error (.badTermD 2e-6)
    ∧ (DatumTransformation.mk "ITRF2008" "ETRF2000"
        ⟨⟨0.0521, 0.0493, -0.0585⟩, 1.34e-9, ⟨0, 0, 0⟩⟩
        ⟨⟨0.0001, 0.0001, -0.0018⟩, 0.08e-9, ⟨0, 0, 0⟩⟩ 2000).convert_fn
      "ITRF2008" "ETRF2000" 27000 = .error (.badTermD 2e-6)
    ∧ (DatumTransformation.mk "ITRF2008" "ETRF2000"
        ⟨⟨0.0521, 0.0493, -0.0585⟩, 1.34e-9, ⟨0, 0, 0⟩⟩
        ⟨⟨0.0001, 0.0001, -0.0018⟩, 0.08e-9, ⟨0, 0, 0⟩⟩ 2000).convert
      ⟨0, 0, 0⟩ "ITRF2008" "ETRF2000" 27000 = .error (.badTermD 2e-6) :=
  propagate_overflow_term_d
    (DatumTransformation.mk "ITRF2008" "ETRF2000"
      ⟨⟨0.0521, 0.0493, -0.0585⟩, 1.34e-9, ⟨0, 0, 0⟩⟩
      ⟨⟨0.0001, 0.0001, -0.0018⟩, 0.08e-9, ⟨0, 0, 0⟩⟩ 2000)
    "ITRF2008" "ETRF2000" ⟨0, 0, 0⟩ 27000 (by norm_num) (by norm_num)

end EtrsItrs
